import Mathlib

/-!
Verification of the chat route of the ai-chatbot repository.

This file shallowly embeds the code under `src/` — in particular
`src/app/(chat)/api/chat/route.ts` (the POST / GET / DELETE handlers and
`getModelForChat`), `src/lib/ai/providers.ts` (the provider registry,
`myProvider`, `getProviderModel`, `getDynamicLanguageModel`) and
`src/lib/ai/entitlements.ts` — and proves or refutes the frozen claims
about it.  Stateful route handlers are embedded as pure functions over an
explicit environment (the results of database reads, the session, clocks),
returning a response value together with the list of writes performed.
JavaScript `Date`s are embedded as integer milliseconds; fallible external
calls are embedded as `Except Unit` values so that every `try/catch` of the
source is visible in the embedding.
-/

namespace AiChatbot

/-- Decidable equality for `Except`, so that concrete environments can be
evaluated by `decide`. -/
instance {ε α : Type} [DecidableEq ε] [DecidableEq α] :
    DecidableEq (Except ε α) := fun a b =>
  match a, b with
  | .error e, .error e' =>
    if h : e = e' then .isTrue (congrArg Except.error h)
    else .isFalse (fun hc => h (Except.error.inj hc))
  | .ok x, .ok y =>
    if h : x = y then .isTrue (congrArg Except.ok h)
    else .isFalse (fun hc => h (Except.ok.inj hc))
  | .error _, .ok _ => .isFalse (fun hc => Except.noConfusion hc)
  | .ok _, .error _ => .isFalse (fun hc => Except.noConfusion hc)

/-! ## Model handles (the values built by the `@ai-sdk/*` factory functions)

A language-model handle is identified by the provider SDK that built it, the
provider-native model id it was built from, and whether it was wrapped by
`wrapLanguageModel` with the reasoning middleware (providers.ts uses
`extractReasoningMiddleware({ tagName: 'think' })` for every wrap, so a
Boolean suffices to distinguish wrapped from unwrapped handles). -/

structure ModelHandle where
  provider : String
  modelId : String
  reasoningWrapped : Bool
deriving DecidableEq, Repr

/-- The `openai` factory from `@ai-sdk/openai`: builds a handle without I/O
and without throwing. -/
def openai (modelId : String) : ModelHandle := ⟨"openai", modelId, false⟩

/-- The `xai` factory from `@ai-sdk/xai`. -/
def xai (modelId : String) : ModelHandle := ⟨"xai", modelId, false⟩

/-- The `anthropic` factory from `@ai-sdk/anthropic`. -/
def anthropic (modelId : String) : ModelHandle := ⟨"anthropic", modelId, false⟩

/-- `wrapLanguageModel({ model, middleware: extractReasoningMiddleware(...) })`
from the `ai` package: the same underlying model, marked as wrapped. -/
def wrapLanguageModel (h : ModelHandle) : ModelHandle :=
  { h with reasoningWrapped := true }

/-- providers.ts:11-23: the `anthropic` binding is the real SDK factory when
`@ai-sdk/anthropic` is installed, and otherwise a mock that ignores the
requested model and returns `openai('gpt-4o')`.  `available` is the
truthiness of that binding's real SDK. -/
def anthropicBinding (available : Bool) (modelId : String) : ModelHandle :=
  if available then anthropic modelId else openai "gpt-4o"

/-! ## providers.ts: the provider registry -/

/-- providers.ts:39-44 — `providerSDKs`, the static slug-indexed table of
provider factory functions (`{ openai, xai, anthropic }`). -/
def providerSDKs (anthropicAvailable : Bool) :
    String → Option (String → ModelHandle) := fun slug =>
  if slug = "openai" then some openai
  else if slug = "xai" then some xai
  else if slug = "anthropic" then some (anthropicBinding anthropicAvailable)
  else none

/-- providers.ts:47-61 — `getProviderModel`.  The factory functions build
handles without throwing, so the `catch` at line 51 never fires; an unknown
slug falls back to `openai('gpt-4o')`. -/
def getProviderModel (anthropicAvailable : Bool)
    (providerSlug modelId : String) : ModelHandle :=
  match providerSDKs anthropicAvailable providerSlug with
  | some ctor => ctor modelId
  | none => openai "gpt-4o"

/-- providers.ts:72-111 — the `languageModels` table of `myProvider`
(the non-test branch: `isTestEnvironment` is false in a deployed server;
the test branch swaps four entries for mock models and is not what the
specification describes). -/
def myProviderLanguageModels (anthropicAvailable : Bool) :
    String → Option ModelHandle := fun id =>
  if id = "openai-gpt4o" then some (openai "gpt-4o")
  else if id = "openai-o3mini" then some (openai "o3-mini")
  else if id = "openai-reasoning" then some (wrapLanguageModel (openai "gpt-4o"))
  else if id = "xai-grok2" then some (xai "grok-2-1212")
  else if id = "xai-grok2-vision" then some (xai "grok-2-vision-1212")
  else if id = "xai-grok3-mini" then some (wrapLanguageModel (xai "grok-3-mini-beta"))
  else if id = "anthropic-claude-3-5-sonnet" then
    some (anthropicBinding anthropicAvailable "claude-3.5-sonnet-20241022")
  else if id = "anthropic-claude-3-5-haiku" then
    some (anthropicBinding anthropicAvailable "claude-3.5-haiku-20241022")
  else if id = "anthropic-claude-3-opus" then
    some (anthropicBinding anthropicAvailable "claude-3-opus-20240229")
  else if id = "anthropic-claude-instant" then
    some (anthropicBinding anthropicAvailable "claude-instant-1.2")
  else if id = "chat-model" then some (openai "gpt-4o")
  else if id = "chat-model-reasoning" then some (wrapLanguageModel (openai "gpt-4o"))
  else if id = "title-model" then some (openai "gpt-3.5-turbo")
  else if id = "artifact-model" then some (openai "gpt-4o")
  else none

/-- JavaScript `s.includes('-')` for a one-character needle: some character
of the string is the needle. -/
def includesChar (s : String) (c : Char) : Bool :=
  s.data.contains c

/-- JavaScript `s.length`: the number of code units, which for the ASCII
identifiers at play is the number of characters. -/
def jsLength (s : String) : Nat :=
  s.data.length

/-- providers.ts:121-160 — `getDynamicLanguageModel`.
Line 127: hit in `myProvider.languageModels` → return it.
Line 139: UUID heuristic (`includes('-') && length > 30`) → return the
`openai('gpt-4o')` fallback (the comment at lines 142-144 says the database
cannot be queried here, so the fallback is returned — without throwing).
Line 155: otherwise `myProvider.languageModel('openai-gpt4o')`, whose
`catch` would fall back to `openai('gpt-4o')`.
Every control path returns a handle; the function never throws. -/
def getDynamicLanguageModel (anthropicAvailable : Bool)
    (modelId : String) : ModelHandle :=
  match myProviderLanguageModels anthropicAvailable modelId with
  | some m => m
  | none =>
    if includesChar modelId '-' && jsLength modelId > 30 then
      openai "gpt-4o"
    else
      match myProviderLanguageModels anthropicAvailable "openai-gpt4o" with
      | some m => m
      | none => openai "gpt-4o"

/-! ## route.ts: messages, attachments, and `getModelForChat` -/

structure Attachment where
  url : String
  name : String
  contentType : String
deriving DecidableEq, Repr

structure TextPart where
  text : String
deriving DecidableEq, Repr

/-- The message object of the validated POST body (schema.ts): role is the
literal `user`; `experimental_attachments` is optional. -/
structure IncomingMessage where
  id : String
  role : String
  content : String
  parts : List TextPart
  experimental_attachments : Option (List Attachment)
deriving DecidableEq, Repr

/-- route.ts:91-93 — `message.experimental_attachments?.some(a =>
a.contentType === 'application/pdf')`; an absent array is falsy. -/
def hasPDFAttachment (m : IncomingMessage) : Bool :=
  match m.experimental_attachments with
  | some as => as.any (fun a => a.contentType = "application/pdf")
  | none => false

/-- A persisted provider/model row (table `providerModel`). -/
structure ProviderModelRow where
  id : String
  providerId : String
  modelId : String
  isChat : Bool
  isImage : Bool
  enabled : Bool
deriving DecidableEq, Repr

/-- A persisted provider row (slug-bearing). -/
structure ProviderRow where
  id : String
  slug : String
deriving DecidableEq, Repr

/-- The environment of one `getModelForChat` call: the truthiness of the
anthropic SDK binding and the results the database would deliver.  A
`.error` value embeds a thrown database error. -/
structure ResolveEnv where
  anthropicAvailable : Bool
  /-- `db.select().from(providerModel).where(eq(providerModel.id, id)).limit(1)`:
  the full table, or a thrown error. -/
  providerModelTable : Except Unit (List ProviderModelRow)
  /-- Modelled from the spec: `getProviderById` (lib/db/queries, not under
  `src/`) — "resolve the owning provider's slug": fetches the provider row
  for a provider id, `none` when absent, `.error` when the database throws. -/
  providerById : String → Except Unit (Option ProviderRow)

/-- route.ts:116-138 plus the fall-through to line 142 — the UUID database
lookup of `getModelForChat`: on the UUID shape heuristic, select the
`providerModel` row by id, fetch its provider, and when the provider exists
with a truthy slug return the registry handle; every failure (database
throw, missing row, missing provider, empty slug) yields `none`, i.e. falls
through to the default.  (As proved below, `getModelForChat` can never
actually reach this code.) -/
def uuidDatabaseLookup (env : ResolveEnv) (modelId : String) :
    Option ModelHandle :=
  if includesChar modelId '-' && jsLength modelId > 30 then
    match env.providerModelTable with
    | .error _ => none
    | .ok table =>
      match (table.filter (fun r => r.id = modelId)).take 1 with
      | [] => none
      | row :: _ =>
        match env.providerById row.providerId with
        | .error _ => none
        | .ok none => none
        | .ok (some provider) =>
          if provider.slug ≠ "" then
            some (getProviderModel env.anthropicAvailable provider.slug row.modelId)
          else none
  else none

/-- The `try` at route.ts:109-114 around `getDynamicLanguageModel`: the
loader returns on every control path (all of its internal operations are
caught), so the call never throws and the result is always `ok`.  The
`Except` shape keeps the source's try/catch structure visible. -/
def tryDynamicLoader (anthropicAvailable : Bool) (modelId : String) :
    Except Unit ModelHandle :=
  Except.ok (getDynamicLanguageModel anthropicAvailable modelId)

/-- route.ts:87-143 — `getModelForChat`.
Lines 96-106: a PDF attachment prefers Anthropic's Claude via the ternary
`anthropic ? anthropic('claude-3.5-sonnet-20241022') : openai('gpt-4o')`
(the factory call builds a handle without throwing, so the `catch` at
line 103 never fires).
Lines 108-114: the dynamic loader inside `try` — it never throws, so it
always returns here.
Lines 116-138: the (consequently unreachable) UUID database lookup.
Line 142: the hard-coded default `openai('gpt-4o')`. -/
def getModelForChat (env : ResolveEnv) (modelId : String)
    (message : IncomingMessage) : ModelHandle :=
  if hasPDFAttachment message then
    if env.anthropicAvailable then anthropic "claude-3.5-sonnet-20241022"
    else openai "gpt-4o"
  else
    match tryDynamicLoader env.anthropicAvailable modelId with
    | .ok m => m
    | .error _ =>
      match uuidDatabaseLookup env modelId with
      | some m => m
      | none => openai "gpt-4o"

/-! ## entitlements.ts -/

inductive UserType where
  | guest
  | regular
deriving DecidableEq, Repr

structure Entitlements where
  maxMessagesPerDay : Nat
  availableChatModelIds : List String
deriving DecidableEq, Repr

/-- entitlements.ts:9-48 — `entitlementsByUserType`. -/
def entitlementsByUserType : UserType → Entitlements
  | .guest =>
    { maxMessagesPerDay := 20
      availableChatModelIds := ["openai-gpt4o", "xai-grok2", "*"] }
  | .regular =>
    { maxMessagesPerDay := 100
      availableChatModelIds :=
        ["openai-gpt4o", "openai-o3mini", "openai-reasoning", "xai-grok2",
         "xai-grok2-vision", "xai-grok3-mini", "*"] }

/-! ## Shared request/state types for the route handlers -/

/-- The `session.user` object delivered by `auth()`. -/
structure SessionUser where
  id : String
  type : UserType
deriving DecidableEq, Repr

/-- A persisted chat row. -/
structure ChatRow where
  id : String
  userId : String
  title : String
  visibility : String
deriving DecidableEq, Repr

/-- A persisted message row, as read back by `getMessagesByChatId`
(timestamps in milliseconds since the epoch, the precision of a JS `Date`). -/
structure DbMessage where
  id : String
  chatId : String
  role : String
  createdAtMs : Int
deriving DecidableEq, Repr

/-- date-fns `differenceInSeconds(later, earlier)`: the difference in whole
seconds, rounded toward zero (date-fns's default `trunc` rounding), which
`Int.tdiv` (truncating division) implements exactly. -/
def differenceInSeconds (laterMs earlierMs : Int) : Int :=
  (laterMs - earlierMs).tdiv 1000

/-! ## route.ts: the POST handler -/

/-- The validated POST body (schema.ts / route.ts:156-157). -/
structure PostBody where
  id : String
  message : IncomingMessage
  selectedChatModel : String
  selectedVisibilityType : String
deriving DecidableEq, Repr

/-- A row written by `saveMessages` (route.ts:229-240): the new user
message, stamped with `new Date()` at save time. -/
structure SavedMessage where
  id : String
  chatId : String
  role : String
  parts : List TextPart
  attachments : List Attachment
  createdAtMs : Int
deriving DecidableEq, Repr

/-- The writes a POST performs, in the order the source performs them:
`saveChat` (route.ts:200), `saveMessages` (229), `createStreamId` (243),
plus the two kinds of model invocations — `generateTitleFromUserMessage`
(196) and `streamText` (250). -/
structure Effects where
  savedChats : List ChatRow
  savedMessages : List SavedMessage
  createdStreamIds : List String
  titleModelCalls : Nat
  streamTextCalls : Nat
deriving DecidableEq, Repr

def noEffects : Effects := ⟨[], [], [], 0, 0⟩

/-- route.ts:259-270 — the `experimental_activeTools` argument passed to
`streamText`. -/
def experimentalActiveTools (selectedChatModel : String) : List String :=
  if selectedChatModel = "chat-model-reasoning" ∨
      selectedChatModel = "openai-reasoning" ∨
      selectedChatModel = "xai-grok3-mini" then
    []
  else
    ["getWeather", "createDocument", "updateDocument",
     "requestSuggestions", "braveSearch"]

inductive PostResponse where
  /-- route.ts:152 — `'Invalid request body'`, 400. -/
  | invalidBody400
  /-- route.ts:162 — 401. -/
  | unauthorized401
  /-- route.ts:185-190 — 429. -/
  | rateLimited429
  /-- route.ts:208 — 403. -/
  | forbidden403
  /-- route.ts:339-344 — the streaming 200 response: the resolved model and
  active tool list handed to `streamText`, and whether the stream was
  wrapped by the resumable-stream context. -/
  | streamResponse (model : ModelHandle) (activeTools : List String)
      (resumable : Bool)
  /-- route.ts:347 — the catch-all 500. -/
  | serverError500
deriving DecidableEq, Repr

/-- The environment of one POST call: the session, the results every read
would deliver, and the values the generators produce. -/
structure PostEnv where
  session : Option SessionUser
  /-- `getMessageCountByUserId({ id, differenceInHours: 24 })`. -/
  messageCount : Nat
  /-- `getChatById({ id })`: the chat row, or `none` when absent. -/
  chatById : String → Option ChatRow
  /-- `generateTitleFromUserMessage` result. -/
  generatedTitle : String
  /-- `generateUUID()` for `createStreamId`. -/
  generatedStreamId : String
  /-- `new Date()` at the `saveMessages` call, in ms. -/
  nowMs : Int
  resolve : ResolveEnv
  /-- `getStreamContext()` truthiness (route.ts:336-344). -/
  streamContextAvailable : Bool

/-- route.ts:212-344 — the tail of POST after the chat-existence/ownership
check: read history, persist the user message, create the stream id,
resolve the model, and return the streaming response carrying the
`experimental_activeTools` list. -/
def postStreamPhase (env : PostEnv) (body : PostBody) (acc : Effects) :
    PostResponse × Effects :=
  let userMsg : SavedMessage :=
    { id := body.message.id
      chatId := body.id
      role := "user"
      parts := body.message.parts
      attachments := (body.message.experimental_attachments).getD []
      createdAtMs := env.nowMs }
  let acc := { acc with savedMessages := acc.savedMessages ++ [userMsg] }
  let acc :=
    { acc with createdStreamIds := acc.createdStreamIds ++ [env.generatedStreamId] }
  let model := getModelForChat env.resolve body.selectedChatModel body.message
  let acc := { acc with streamTextCalls := acc.streamTextCalls + 1 }
  (.streamResponse model (experimentalActiveTools body.selectedChatModel)
      env.streamContextAvailable,
    acc)

/-- route.ts:145-351 — the POST handler.  `requestBody = none` embeds a body
rejected by `postRequestBodySchema.parse` (route.ts:148-153).  The
`getDefaultUserPersona` lookup (167-177) is caught and affects only the
system prompt, not control flow, so it needs no environment field. -/
def POSTrun (env : PostEnv) (requestBody : Option PostBody) :
    PostResponse × Effects :=
  match requestBody with
  | none => (.invalidBody400, noEffects)
  | some body =>
    match env.session with
    | none => (.unauthorized401, noEffects)
    | some user =>
      if env.messageCount > (entitlementsByUserType user.type).maxMessagesPerDay then
        (.rateLimited429, noEffects)
      else
        match env.chatById body.id with
        | none =>
          -- route.ts:195-205: generate a title (one model call) and save
          -- the new chat before streaming.
          postStreamPhase env body
            { noEffects with
                titleModelCalls := 1
                savedChats :=
                  [{ id := body.id
                     userId := user.id
                     title := env.generatedTitle
                     visibility := body.selectedVisibilityType }] }
        | some chat =>
          if chat.userId ≠ user.id then (.forbidden403, noEffects)
          else postStreamPhase env body noEffects

/-! ## route.ts: the GET (reconnect) handler -/

inductive GetResponse where
  /-- route.ts:358 — 204 when the stream context is unavailable. -/
  | noContent204
  /-- route.ts:365 — `'id is required'`, 400. -/
  | badRequest400
  /-- route.ts:371 — 401. -/
  | unauthorized401
  /-- route.ts:379, 383, 393, 399 — 404. -/
  | notFound404
  /-- route.ts:387 — 403. -/
  | forbidden403
  /-- route.ts:420, 424, 430 — the empty data stream with status 200. -/
  | emptyStream200
  /-- route.ts:433-442 — the restored stream: a 200 response whose execute
  writes exactly one `append-message` data event carrying the message. -/
  | appendMessageStream200 (message : DbMessage)
  /-- route.ts:445 — the live resumed stream, 200. -/
  | resumedStream200 (streamId : String)
deriving DecidableEq, Repr

/-- The environment of one GET call. -/
structure GetEnv where
  /-- `getStreamContext()` truthiness (route.ts:354-359). -/
  streamContextAvailable : Bool
  /-- `new Date()` captured at route.ts:355, in ms. -/
  resumeRequestedAtMs : Int
  session : Option SessionUser
  /-- `getChatById` inside `try` (route.ts:376-380): `.error` embeds a
  thrown lookup, `.ok none` a missing chat. -/
  chatById : String → Except Unit (Option ChatRow)
  /-- `getStreamIdsByChatId`, in creation order. -/
  streamIdsByChatId : String → List String
  /-- Truthiness of `streamContext.resumableStream(recentStreamId, ...)`:
  whether a live or stored stream still exists for the id. -/
  activeStreamExists : String → Bool
  /-- Modelled from the spec: `getMessagesByChatId` (lib/db/queries, not
  under `src/`) — the chat's "full persisted message history (ordered by
  creation)", so the last element is the most recent message. -/
  messagesByChatId : String → List DbMessage

/-- route.ts:353-446 — the GET (reconnect) handler.  `chatIdParam = none`
embeds an absent `chatId` query parameter; JavaScript's `!chatId` (line 364)
and `!recentStreamId` (line 398) are also true on an empty string. -/
def GETrun (env : GetEnv) (chatIdParam : Option String) : GetResponse :=
  if env.streamContextAvailable = false then .noContent204
  else
    match chatIdParam with
    | none => .badRequest400
    | some chatId =>
      if chatId = "" then .badRequest400
      else
        match env.session with
        | none => .unauthorized401
        | some user =>
          match env.chatById chatId with
          | .error _ => .notFound404
          | .ok none => .notFound404
          | .ok (some chat) =>
            if chat.visibility = "private" ∧ chat.userId ≠ user.id then
              .forbidden403
            else
              match (env.streamIdsByChatId chatId).getLast? with
              | none => .notFound404
              | some recentStreamId =>
                if recentStreamId = "" then .notFound404
                else if env.activeStreamExists recentStreamId then
                  .resumedStream200 recentStreamId
                else
                  match (env.messagesByChatId chatId).getLast? with
                  | none => .emptyStream200
                  | some mostRecentMessage =>
                    if mostRecentMessage.role ≠ "assistant" then
                      .emptyStream200
                    else if differenceInSeconds env.resumeRequestedAtMs
                        mostRecentMessage.createdAtMs > 15 then
                      .emptyStream200
                    else
                      .appendMessageStream200 mostRecentMessage

/-! ## route.ts: the DELETE handler -/

inductive DeleteResponse where
  /-- route.ts:453 — `'Not Found'`, 404 (absent `id` parameter). -/
  | notFound404
  /-- route.ts:459 — 401. -/
  | unauthorized401
  /-- route.ts:466 — 403. -/
  | forbidden403
  /-- route.ts:471 — the deleted chat as JSON, 200. -/
  | okDeleted200 (chat : ChatRow)
  /-- route.ts:474 — the catch-all 500. -/
  | serverError500
deriving DecidableEq, Repr

structure DeleteEnv where
  session : Option SessionUser
  /-- Modelled from the spec: `getChatById` (lib/db/queries, not under
  `src/`) — "loads chat (404 if missing)": returns the chat row, or an
  absent (undefined) value when no chat has the id; it does not throw on a
  missing chat (the GET handler's `if (!chat)` check at route.ts:382
  depends on exactly this). -/
  chatById : String → Option ChatRow
  /-- `deleteChatById`: the deleted row, or a thrown database error. -/
  deleteChatById : String → Except Unit ChatRow

/-- route.ts:448-478 — the DELETE handler.  `idParam = none` embeds an
absent `id` query parameter (`!id` is also true on an empty string, as is
`!session?.user?.id` on an empty user id).  When `getChatById` finds no
chat, line 465 reads `chat.userId` off an undefined value; the TypeError is
caught by the catch-all at line 472 and becomes the generic 500. -/
def DELETErun (env : DeleteEnv) (idParam : Option String) : DeleteResponse :=
  match idParam with
  | none => .notFound404
  | some i =>
    if i = "" then .notFound404
    else
      match env.session with
      | none => .unauthorized401
      | some user =>
        if user.id = "" then .unauthorized401
        else
          match env.chatById i with
          | none => .serverError500
          | some chat =>
            if chat.userId ≠ user.id then .forbidden403
            else
              match env.deleteChatById i with
              | .error _ => .serverError500
              | .ok deleted => .okDeleted200 deleted

/-! ## Concrete fixtures used by the witnesses and counterexamples -/

/-- A plain user message with no attachments. -/
def noAttachmentMessage : IncomingMessage :=
  { id := "aaaaaaaa-0000-0000-0000-000000000001"
    role := "user"
    content := "hello"
    parts := [⟨"hello"⟩]
    experimental_attachments := none }

/-- A user message carrying one PDF attachment. -/
def pdfMessage : IncomingMessage :=
  { id := "aaaaaaaa-0000-0000-0000-000000000002"
    role := "user"
    content := "see the attached file"
    parts := [⟨"see the attached file"⟩]
    experimental_attachments :=
      some [{ url := "https://example.com/f.pdf"
              name := "f.pdf"
              contentType := "application/pdf" }] }

/-- A 36-character UUID (contains separators, length over 30). -/
def sampleUuid : String := "123e4567-e89b-12d3-a456-426614174000"

/-- A resolution environment whose database holds an enabled chat model row
under `sampleUuid`, owned by the provider with slug `xai` and carrying the
provider-native id `grok-2-1212`; the anthropic SDK is installed. -/
def resolveEnvDb : ResolveEnv :=
  { anthropicAvailable := true
    providerModelTable :=
      .ok [{ id := sampleUuid
             providerId := "prov-1"
             modelId := "grok-2-1212"
             isChat := true
             isImage := false
             enabled := true }]
    providerById := fun pid =>
      if pid = "prov-1" then .ok (some { id := "prov-1", slug := "xai" })
      else .ok none }

/-! ## Claims about model resolution (C1, C2, C7) -/

/-- C1: the claim states that a 36-character UUID matching an enabled
persisted provider/model row resolves through the persisted records to the
registry handle built from the owning provider's slug and the row's native
model id.  The code never does this: `getDynamicLanguageModel` returns the
hard-coded default `openai('gpt-4o')` for UUID-shaped identifiers instead of
throwing, so the `try` at route.ts:109-114 always returns and the database
branch (route.ts:116-138) — which would indeed produce the registry handle,
as the second conjunct shows — is unreachable.  At `sampleUuid`, resolution
returns `openai('gpt-4o')` while the claim requires `xai('grok-2-1212')`. -/
theorem C1_uuid_resolution_returns_default_not_registry_handle :
    getModelForChat resolveEnvDb sampleUuid noAttachmentMessage = openai "gpt-4o" ∧
    uuidDatabaseLookup resolveEnvDb sampleUuid = some (xai "grok-2-1212") ∧
    openai "gpt-4o" ≠ xai "grok-2-1212" := by
  decide

/-- C2: for every model identifier and inbound message, `getModelForChat`
returns some model handle — the embedding is a total function into
`ModelHandle` because every fallible step of the source is wrapped in a
catch (`tryDynamicLoader` is always `ok`, and both failure outcomes of
`uuidDatabaseLookup`, thrown database reads included, fall through to the
default) — and whenever the identifier misses the static registry (and no
PDF reroutes the message), the result is exactly the hard-coded default
`openai('gpt-4o')`, whatever the database does. -/
theorem C2_resolution_never_fails_and_degrades_to_default :
    ∀ (env : ResolveEnv) (modelId : String) (message : IncomingMessage),
      ∃ h : ModelHandle,
        getModelForChat env modelId message = h ∧
        (hasPDFAttachment message = false →
          myProviderLanguageModels env.anthropicAvailable modelId = none →
          h = openai "gpt-4o") := by
  intro env modelId message
  refine ⟨getModelForChat env modelId message, rfl, ?_⟩
  intro hpdf hmiss
  unfold getModelForChat tryDynamicLoader getDynamicLanguageModel
  simp only [hpdf, Bool.false_eq_true, if_false, hmiss]
  split
  · rfl
  · rfl

/-- C2 witness: at the concrete unrecognized 5-character identifier
`"zzzzz"`, resolution returns the default handle. -/
theorem C2_witness :
    getModelForChat resolveEnvDb "zzzzz" noAttachmentMessage = openai "gpt-4o" := by
  obtain ⟨h, hEq, hDef⟩ :=
    C2_resolution_never_fails_and_degrades_to_default resolveEnvDb "zzzzz"
      noAttachmentMessage
  rw [hEq]
  exact hDef rfl rfl

/-- C7: a message with an `application/pdf` attachment resolves to the
document-capable provider's handle — Anthropic's
`claude-3.5-sonnet-20241022` when the anthropic binding is available, the
default `openai('gpt-4o')` otherwise — regardless of the selected model
identifier: the PDF check is the first step of `getModelForChat` and
pre-empts every later resolution step. -/
theorem C7_pdf_attachment_takes_precedence :
    ∀ (env : ResolveEnv) (modelId : String) (message : IncomingMessage),
      hasPDFAttachment message = true →
      getModelForChat env modelId message =
        (if env.anthropicAvailable then anthropic "claude-3.5-sonnet-20241022"
         else openai "gpt-4o") := by
  intro env modelId message hpdf
  unfold getModelForChat
  simp only [hpdf, if_true]

/-- C7 witness: the concrete PDF-carrying message resolves to the Anthropic
handle even though the selected identifier names an xai model. -/
theorem C7_witness :
    hasPDFAttachment pdfMessage = true ∧
    getModelForChat resolveEnvDb "xai-grok2" pdfMessage =
      anthropic "claude-3.5-sonnet-20241022" := by
  refine ⟨by decide, ?_⟩
  rw [C7_pdf_attachment_takes_precedence resolveEnvDb "xai-grok2" pdfMessage (by decide)]
  decide

/-! ## Claims about the POST handler (C4, C6, C9) -/

/-- A well-formed POST body selecting a non-reasoning model. -/
def samplePostBody : PostBody :=
  { id := "cccccccc-0000-0000-0000-000000000001"
    message := noAttachmentMessage
    selectedChatModel := "openai-gpt4o"
    selectedVisibilityType := "private" }

/-- A POST environment for a guest user who already has 21 persisted
messages in the window (over the guest limit of 20). -/
def postEnvOverQuota : PostEnv :=
  { session := some { id := "user-1", type := .guest }
    messageCount := 21
    chatById := fun _ => none
    generatedTitle := "a chat title"
    generatedStreamId := "dddddddd-0000-0000-0000-000000000001"
    nowMs := 1700000000000
    resolve := resolveEnvDb
    streamContextAvailable := true }

/-- A POST environment for a guest user exactly at the limit (20 of 20),
addressing a fresh chat id. -/
def postEnvAtQuota : PostEnv :=
  { postEnvOverQuota with messageCount := 20 }

/-- C4: the `experimental_activeTools` list handed to `streamText` is empty
exactly when the selected model identifier is one of
`chat-model-reasoning`, `openai-reasoning`, `xai-grok3-mini`; every other
identifier receives the full fixed five-tool list; and every streaming POST
response carries exactly that list for its selected model. -/
theorem C4_active_tools_gated_by_reasoning_models :
    (∀ sel : String,
      (experimentalActiveTools sel = [] ↔
        (sel = "chat-model-reasoning" ∨ sel = "openai-reasoning" ∨
          sel = "xai-grok3-mini")) ∧
      (¬(sel = "chat-model-reasoning" ∨ sel = "openai-reasoning" ∨
          sel = "xai-grok3-mini") →
        experimentalActiveTools sel =
          ["getWeather", "createDocument", "updateDocument",
           "requestSuggestions", "braveSearch"])) ∧
    (∀ (env : PostEnv) (body : PostBody) (m : ModelHandle)
        (tools : List String) (r : Bool) (eff : Effects),
      POSTrun env (some body) = (.streamResponse m tools r, eff) →
      tools = experimentalActiveTools body.selectedChatModel) := by
  constructor
  · intro sel
    constructor
    · unfold experimentalActiveTools
      split
      · next h => simpa using h
      · next h => simpa using h
    · intro hn
      unfold experimentalActiveTools
      rw [if_neg hn]
  · intro env body m tools r eff h
    simp only [POSTrun] at h
    split at h
    · simp at h
    · split at h
      · simp at h
      · split at h
        · simp only [postStreamPhase] at h
          simp at h
          exact h.1.2.1.symm
        · split at h
          · simp at h
          · simp only [postStreamPhase] at h
            simp at h
            exact h.1.2.1.symm

/-- C4 witness: a reasoning identifier yields the empty tool list, a
non-reasoning identifier the full five-tool list, and a concrete streaming
POST carries the list for its selected model. -/
theorem C4_witness :
    experimentalActiveTools "openai-reasoning" = [] ∧
    experimentalActiveTools "openai-gpt4o" =
      ["getWeather", "createDocument", "updateDocument",
       "requestSuggestions", "braveSearch"] :=
  ⟨(C4_active_tools_gated_by_reasoning_models.1 "openai-reasoning").1.mpr
      (Or.inr (Or.inl rfl)),
    (C4_active_tools_gated_by_reasoning_models.1 "openai-gpt4o").2 (by decide)⟩

/-- C6: when the user's persisted message count over the preceding 24 hours
exceeds their user type's `maxMessagesPerDay`, POST answers 429 having
performed no write and no model call: no chat saved, no message saved, no
stream id created, no title generation, no `streamText` invocation. -/
theorem C6_quota_exceeded_yields_429_without_side_effects :
    ∀ (env : PostEnv) (body : PostBody) (user : SessionUser),
      env.session = some user →
      env.messageCount > (entitlementsByUserType user.type).maxMessagesPerDay →
      POSTrun env (some body) = (.rateLimited429, noEffects) := by
  intro env body user hs hq
  simp only [POSTrun, hs]
  rw [if_pos hq]

/-- C6 witness: a guest with 21 messages in the window (limit 20) receives
429 and the empty effect record. -/
theorem C6_witness :
    POSTrun postEnvOverQuota (some samplePostBody) = (.rateLimited429, noEffects) :=
  C6_quota_exceeded_yields_429_without_side_effects postEnvOverQuota
    samplePostBody { id := "user-1", type := .guest } rfl (by decide)

/-- C9: the quota check rejects only when the window count is strictly
greater than `maxMessagesPerDay` — POST returns 429 exactly when
`messageCount > maxMessagesPerDay` — so a user exactly at the limit is
still admitted, and (addressing a fresh or owned chat) gets their user
message persisted, bringing the window to `maxMessagesPerDay + 1` persisted
messages. -/
theorem C9_quota_boundary_admits_at_limit :
    ∀ (env : PostEnv) (body : PostBody) (user : SessionUser),
      env.session = some user →
      (((POSTrun env (some body)).1 = .rateLimited429) ↔
        env.messageCount > (entitlementsByUserType user.type).maxMessagesPerDay) ∧
      (env.messageCount = (entitlementsByUserType user.type).maxMessagesPerDay →
        (env.chatById body.id = none ∨
          ∃ c, env.chatById body.id = some c ∧ c.userId = user.id) →
        (POSTrun env (some body)).1 ≠ .rateLimited429 ∧
        ∃ saved ∈ (POSTrun env (some body)).2.savedMessages,
          saved.id = body.message.id ∧ saved.role = "user") := by
  intro env body user hs
  simp only [POSTrun, hs]
  by_cases hq :
      env.messageCount > (entitlementsByUserType user.type).maxMessagesPerDay
  · rw [if_pos hq]
    refine ⟨by simpa using hq, ?_⟩
    intro heq
    rw [heq] at hq
    exact absurd hq (lt_irrefl _)
  · rw [if_neg hq]
    constructor
    · cases hchat : env.chatById body.id with
      | none => simp [postStreamPhase, hq]
      | some c =>
        by_cases hown : c.userId ≠ user.id
        · simp [hown, hq]
        · simp [hown, postStreamPhase, hq]
    · intro heq hok
      cases hchat : env.chatById body.id with
      | none =>
        simp [postStreamPhase]
        exact ⟨_, Or.inr rfl, rfl, rfl⟩
      | some c =>
        rcases hok with hnone | ⟨c', hc', huid⟩
        · rw [hchat] at hnone; exact absurd hnone (by simp)
        · rw [hchat] at hc'
          have : c = c' := by injection hc'
          subst this
          simp [huid, postStreamPhase]
          exact ⟨_, Or.inr rfl, rfl, rfl⟩

/-- C9 witness: a guest exactly at the limit (20 of 20) is not
rate-limited and the user message is persisted. -/
theorem C9_witness :
    (POSTrun postEnvAtQuota (some samplePostBody)).1 ≠ .rateLimited429 ∧
    ∃ saved ∈ (POSTrun postEnvAtQuota (some samplePostBody)).2.savedMessages,
      saved.id = samplePostBody.message.id ∧ saved.role = "user" :=
  (C9_quota_boundary_admits_at_limit postEnvAtQuota samplePostBody
      { id := "user-1", type := .guest } rfl).2 (by decide) (Or.inl rfl)

/-! ## Claims about the GET (reconnect) handler (C3, C8) -/

/-- A public chat owned by `user-1`. -/
def graceChat : ChatRow :=
  { id := "chat-3", userId := "user-1", title := "t", visibility := "public" }

/-- An assistant message persisted at a fixed epoch instant. -/
def graceMessage : DbMessage :=
  { id := "m-3", chatId := "chat-3", role := "assistant"
    createdAtMs := 1700000000000 }

/-- A reconnect environment in which the resumable stream for `chat-3` is
no longer in the store and the assistant message `graceMessage` is the most
recent persisted message; the resume request arrives 15 900 ms — more than
15 seconds — after the message was created. -/
def graceEnv : GetEnv :=
  { streamContextAvailable := true
    resumeRequestedAtMs := 1700000000000 + 15900
    session := some { id := "user-1", type := .regular }
    chatById := fun cid =>
      if cid = "chat-3" then .ok (some graceChat) else .ok none
    streamIdsByChatId := fun cid => if cid = "chat-3" then ["stream-3"] else []
    activeStreamExists := fun _ => false
    messagesByChatId := fun cid => if cid = "chat-3" then [graceMessage] else [] }

/-- The same environment with the resume request arriving exactly 16 000 ms
after the message was created. -/
def graceEnv16 : GetEnv :=
  { graceEnv with resumeRequestedAtMs := 1700000000000 + 16000 }

/-- C3 counterexample: the assistant message was created 15 900 ms — more
than 15 seconds — before the resume request, so the claim requires an empty
200 stream, yet the handler synthesizes the append-message event: date-fns
`differenceInSeconds` truncates 15.9 to 15, which is not `> 15`. -/
theorem C3_counterexample_beyond_15_seconds :
    graceEnv.resumeRequestedAtMs - graceMessage.createdAtMs > 15000 ∧
    GETrun graceEnv (some "chat-3") = .appendMessageStream200 graceMessage ∧
    GetResponse.appendMessageStream200 graceMessage ≠ .emptyStream200 := by
  decide

/-- C3 (amended): when the resumable stream is gone and the most recent
persisted message has role assistant, the reconnect response synthesizes
the single append-message event carrying that message exactly when the
truncated whole-second difference between the resume request time and the
message's creation time is at most 15 (so in particular whenever at most 15
seconds have elapsed, but also for elapsed times up to just under 16
seconds), and is the empty 200 stream when that truncated difference
exceeds 15, i.e. when at least 16 full seconds have elapsed. -/
theorem C3_grace_window_truncated_seconds :
    ∀ (env : GetEnv) (cid : String) (u : SessionUser) (c : ChatRow)
      (sid : String) (m : DbMessage),
      env.streamContextAvailable = true →
      cid ≠ "" →
      env.session = some u →
      env.chatById cid = .ok (some c) →
      ¬(c.visibility = "private" ∧ c.userId ≠ u.id) →
      (env.streamIdsByChatId cid).getLast? = some sid →
      sid ≠ "" →
      env.activeStreamExists sid = false →
      (env.messagesByChatId cid).getLast? = some m →
      m.role = "assistant" →
      ((differenceInSeconds env.resumeRequestedAtMs m.createdAtMs ≤ 15 →
          GETrun env (some cid) = .appendMessageStream200 m) ∧
        (differenceInSeconds env.resumeRequestedAtMs m.createdAtMs > 15 →
          GETrun env (some cid) = .emptyStream200)) := by
  intro env cid u c sid m hctx hcid hs hchat hvis hsid hsidne hact hm hrole
  have hrun : GETrun env (some cid) =
      if differenceInSeconds env.resumeRequestedAtMs m.createdAtMs > 15 then
        .emptyStream200
      else
        .appendMessageStream200 m := by
    unfold GETrun
    rw [hctx]
    simp only [Bool.true_eq_false, if_false, if_neg hcid, hs, hchat,
      if_neg hvis, hsid, if_neg hsidne, hact, Bool.false_eq_true, hm,
      hrole, ne_eq, not_true_eq_false, ite_false]
  constructor
  · intro hle
    rw [hrun, if_neg (by omega)]
  · intro hgt
    rw [hrun, if_pos hgt]

/-- C3 witness for the amended claim: at 15 900 ms elapsed (truncated
difference 15) the event is synthesized; at 16 000 ms elapsed (truncated
difference 16) the empty stream is returned. -/
theorem C3_witness :
    GETrun graceEnv (some "chat-3") = .appendMessageStream200 graceMessage ∧
    GETrun graceEnv16 (some "chat-3") = .emptyStream200 :=
  ⟨(C3_grace_window_truncated_seconds graceEnv "chat-3"
        { id := "user-1", type := .regular } graceChat "stream-3" graceMessage
        rfl (by decide) rfl (by decide) (by decide) (by decide) (by decide)
        rfl (by decide) rfl).1 (by decide),
    (C3_grace_window_truncated_seconds graceEnv16 "chat-3"
        { id := "user-1", type := .regular } graceChat "stream-3" graceMessage
        rfl (by decide) rfl (by decide) (by decide) (by decide) (by decide)
        rfl (by decide) rfl).2 (by decide)⟩

/-- A GET environment with the stream context unavailable. -/
def noContextEnv : GetEnv :=
  { streamContextAvailable := false
    resumeRequestedAtMs := 0
    session := none
    chatById := fun _ => .ok none
    streamIdsByChatId := fun _ => []
    activeStreamExists := fun _ => false
    messagesByChatId := fun _ => [] }

/-- A GET environment with the stream context available and no session. -/
def contextNoSessionEnv : GetEnv :=
  { noContextEnv with streamContextAvailable := true }

/-- C8 counterexample: with resumable streaming disabled, a GET lacking the
`chatId` query parameter returns 204, not the 400 the claim requires — the
disabled-streaming check at route.ts:357 runs before the parameter check at
route.ts:364. -/
theorem C8_counterexample_204_before_400 :
    GETrun noContextEnv none = .noContent204 ∧
    GetResponse.noContent204 ≠ .badRequest400 := by
  decide

/-- C8 (amended): the disabled-streaming 204 check runs first and applies
regardless of the other checks; when the stream context is available, a GET
lacking the `chatId` query parameter returns 400, and an unauthenticated
GET carrying a `chatId` returns 401. -/
theorem C8_prechecks_after_204 :
    ∀ (env : GetEnv) (p : Option String),
      (env.streamContextAvailable = false → GETrun env p = .noContent204) ∧
      (env.streamContextAvailable = true →
        (p = none → GETrun env p = .badRequest400) ∧
        (∀ cid, p = some cid → cid ≠ "" → env.session = none →
          GETrun env p = .unauthorized401)) := by
  intro env p
  constructor
  · intro hctx
    unfold GETrun
    rw [hctx]
    simp
  · intro hctx
    constructor
    · intro hp
      subst hp
      unfold GETrun
      rw [hctx]
      simp
    · intro cid hp hcid hs
      subst hp
      unfold GETrun
      rw [hctx, hs]
      simp [hcid]

/-- C8 witness: concretely, with the context unavailable every request gets
204; with it available, a missing `chatId` gets 400 and an unauthenticated
request with a `chatId` gets 401. -/
theorem C8_witness :
    GETrun noContextEnv (some "chat-3") = .noContent204 ∧
    GETrun contextNoSessionEnv none = .badRequest400 ∧
    GETrun contextNoSessionEnv (some "chat-3") = .unauthorized401 :=
  ⟨(C8_prechecks_after_204 noContextEnv (some "chat-3")).1 rfl,
    ((C8_prechecks_after_204 contextNoSessionEnv none).2 rfl).1 rfl,
    ((C8_prechecks_after_204 contextNoSessionEnv (some "chat-3")).2 rfl).2
      "chat-3" rfl (by decide) rfl⟩

/-! ## Claims about authorization and deletion (C5, C10) -/

/-- A DELETE environment whose only chat `chat-5` is private and owned by
`owner-1`; deletion itself succeeds. -/
def deleteEnvOtherOwner : DeleteEnv :=
  { session := some { id := "intruder-1", type := .regular }
    chatById := fun i =>
      if i = "chat-5" then
        some { id := "chat-5", userId := "owner-1", title := "t"
               visibility := "private" }
      else none
    deleteChatById := fun i =>
      .ok { id := i, userId := "owner-1", title := "t"
            visibility := "private" } }

/-- A GET environment whose chat `chat-5` is private and owned by
`owner-1`, accessed by the authenticated non-owner `intruder-1`. -/
def getEnvOtherOwner : GetEnv :=
  { streamContextAvailable := true
    resumeRequestedAtMs := 0
    session := some { id := "intruder-1", type := .regular }
    chatById := fun cid =>
      if cid = "chat-5" then
        .ok (some { id := "chat-5", userId := "owner-1", title := "t"
                    visibility := "private" })
      else .ok none
    streamIdsByChatId := fun _ => []
    activeStreamExists := fun _ => false
    messagesByChatId := fun _ => [] }

/-- C5: a private chat accessed by an authenticated non-owner draws 403
from both the GET reconnect endpoint (once the request reaches the
visibility check: context available, parameter present) and the DELETE
endpoint; and for a public chat the GET reconnect endpoint never returns
403, whoever the authenticated user is. -/
theorem C5_private_403_public_readable :
    (∀ (env : GetEnv) (cid : String) (u : SessionUser) (c : ChatRow),
      env.session = some u →
      env.chatById cid = .ok (some c) →
      ((env.streamContextAvailable = true → cid ≠ "" →
          c.visibility = "private" → c.userId ≠ u.id →
          GETrun env (some cid) = .forbidden403) ∧
        (c.visibility = "public" → GETrun env (some cid) ≠ .forbidden403))) ∧
    (∀ (env : DeleteEnv) (i : String) (u : SessionUser) (c : ChatRow),
      env.session = some u → u.id ≠ "" → i ≠ "" →
      env.chatById i = some c →
      c.visibility = "private" → c.userId ≠ u.id →
      DELETErun env (some i) = .forbidden403) := by
  constructor
  · intro env cid u c hs hchat
    constructor
    · intro hctx hcid hpriv hneq
      unfold GETrun
      rw [hctx]
      simp only [Bool.true_eq_false, if_false, if_neg hcid, hs, hchat]
      rw [if_pos ⟨hpriv, hneq⟩]
    · intro hpub
      unfold GETrun
      by_cases hctx : env.streamContextAvailable = false
      · simp [hctx]
      · simp only [if_neg hctx]
        by_cases hcid : cid = ""
        · simp [hcid]
        · simp only [if_neg hcid, hs, hchat]
          rw [if_neg (by simp [hpub])]
          split
          · simp
          · split
            · simp
            · split
              · simp
              · split
                · simp
                · split
                  · simp
                  · split
                    · simp
                    · simp
  · intro env i u c hs huid hi hchat hpriv hneq
    simp only [DELETErun, hs, hchat]
    rw [if_neg hi, if_neg huid, if_pos hneq]

/-- C5 witness: the concrete non-owner `intruder-1` gets 403 from GET and
DELETE on the private chat `chat-5`, and any GET on the public `chat-3` of
`graceEnv` is not 403. -/
theorem C5_witness :
    GETrun getEnvOtherOwner (some "chat-5") = .forbidden403 ∧
    DELETErun deleteEnvOtherOwner (some "chat-5") = .forbidden403 ∧
    GETrun graceEnv (some "chat-3") ≠ .forbidden403 :=
  ⟨((C5_private_403_public_readable.1 getEnvOtherOwner "chat-5"
        { id := "intruder-1", type := .regular }
        { id := "chat-5", userId := "owner-1", title := "t"
          visibility := "private" }
        rfl (by decide)).1 rfl (by decide) rfl (by decide)),
    (C5_private_403_public_readable.2 deleteEnvOtherOwner "chat-5"
        { id := "intruder-1", type := .regular }
        { id := "chat-5", userId := "owner-1", title := "t"
          visibility := "private" }
        rfl (by decide) (by decide) (by decide) rfl (by decide)),
    ((C5_private_403_public_readable.1 graceEnv "chat-3"
        { id := "user-1", type := .regular } graceChat
        rfl (by decide)).2 rfl)⟩

/-- C10: an authenticated DELETE whose `id` names no existing chat returns
the generic 500, not 404: `getChatById` yields no row, line 465 reads
`chat.userId` off the undefined value, and the TypeError lands in the
catch-all handler at route.ts:472. -/
theorem C10_delete_missing_chat_returns_500 :
    ∀ (env : DeleteEnv) (i : String) (u : SessionUser),
      i ≠ "" → env.session = some u → u.id ≠ "" →
      env.chatById i = none →
      DELETErun env (some i) = .serverError500 ∧
      DeleteResponse.serverError500 ≠ .notFound404 := by
  intro env i u hi hs huid hchat
  constructor
  · simp only [DELETErun, hs, hchat]
    rw [if_neg hi, if_neg huid]
  · exact fun h => DeleteResponse.noConfusion h

/-- C10 witness: deleting the absent chat id `chat-missing` in the concrete
environment yields 500. -/
theorem C10_witness :
    DELETErun deleteEnvOtherOwner (some "chat-missing") = .serverError500 ∧
    DeleteResponse.serverError500 ≠ .notFound404 :=
  C10_delete_missing_chat_returns_500 deleteEnvOtherOwner "chat-missing"
    { id := "intruder-1", type := .regular }
    (by decide) rfl (by decide) (by decide)

end AiChatbot
